import Mathlib

/-!
Verification of the `usbmidi-host` USB host-side controller driver core
(`atsamd-usb-host` crate): the host task state machine (`host.rs`), the
pipe transfer engine (`pipe.rs`) and the pipe table (`pipe/table.rs`),
shallowly embedded as executable Lean definitions.  Hardware registers are
modelled as explicit snapshot values, the monotonic millisecond clock as a
function `Nat → Nat`, and the blocking poll loops with an explicit fuel
parameter (`none` = still polling when the fuel ran out).
-/

set_option maxRecDepth 4000

/-- Transfer types of an endpoint, from `usb-host/src/lib.rs` (`TransferType`). -/
inductive TransferType where
  | control
  | isochronous
  | bulk
  | interrupt
deriving DecidableEq

/-- Transfer direction, from `usb-host/src/lib.rs` (`Direction`). -/
inductive Direction where
  | Out
  | In
deriving DecidableEq

/-- Transfer-layer errors, from `usb-host/src/lib.rs` (`TransferError`).
The `runtime` payload (a `RuntimeError` from the runtime crate) is irrelevant
to the claims and elided. -/
inductive TransferError where
  | retry (tag : String)
  | permanent (tag : String)
  | runtimeErr
  | invalidDescriptor
  | tooManyJacks
  | enumerationFailed
deriving DecidableEq

/-- Pipe-level errors, from `atsamd-usb-host/src/error.rs` (`PipeErr`). -/
inductive PipeErr where
  | runtimeErr
  | stall
  | transferFail
  | nak
  | overflow
  | underflow
  | hwTimeout
  | dataToggle
  | swTimeout
deriving DecidableEq

/-- The error classification `impl From<PipeErr> for TransferError` in
`atsamd-usb-host/src/error.rs` lines 4-21. -/
def PipeErr.toTransferError : PipeErr → TransferError
  | .transferFail => .permanent (r"Transfer failed")
  | .nak => .retry (r"NAK")
  | .underflow => .retry (r"Underflow")
  | .overflow => .retry (r"Overflow")
  | .dataToggle => .retry (r"Toggle sequence")
  | .stall => .permanent (r"Pipe: Stall")
  | .hwTimeout => .permanent (r"Pipe: Hardware timeout")
  | .swTimeout => .permanent (r"Pipe: Software timeout")
  | .runtimeErr => .permanent (r"Pipe: Interrupted")

/-- The `pcksize.size` class selection performed by `PipeTable::pipe_for`
(`atsamd-usb-host/src/pipe/table.rs` lines 44-63), returned as the byte size
of the chosen hardware size class.  The thresholds are exactly the source's
`if mps >= 1023 ... else if mps >= 512 ...` chain. -/
def pipe_for_size_class (mps : Nat) : Nat :=
  if 1023 ≤ mps then 1024
  else if 512 ≤ mps then 512
  else if 256 ≤ mps then 256
  else if 128 ≤ mps then 128
  else if 64 ≤ mps then 64
  else if 32 ≤ mps then 32
  else if 16 ≤ mps then 16
  else 8

/-- Follows the spec's words (spec §4.2 / §8.3): the largest hardware-supported
size class (8/16/32/64/128/256/512/1024) less than or equal to the requested
size, with floor 8 (below all thresholds) and cap 1024.  Stated as a separate
definition to be compared with `pipe_for_size_class`, which is translated from
the source. -/

def spec_size_class (mps : Nat) : Nat :=
  if 1024 ≤ mps then 1024
  else if 512 ≤ mps then 512
  else if 256 ≤ mps then 256
  else if 128 ≤ mps then 128
  else if 64 ≤ mps then 64
  else if 32 ≤ mps then 32
  else if 16 ≤ mps then 16
  else 8

/-- Host events, from `atsamd-usb-host/src/host.rs` (`HostEvent`). -/
inductive HostEvent where
  | noEvent
  | detached
  | attached
  | ramAccess
  | upstreamResume
  | downResume
  | wakeUp
  | reset
  | hostStartOfFrame
deriving DecidableEq

/-- Snapshot of the USB host interrupt flag register (`intflag`) bits read by
`SAMDHost::irq_next_event` and by the `update` state guards. -/
structure IntFlags where
  ddisc : Bool
  dconn : Bool
  ramacer : Bool
  uprsm : Bool
  dnrsm : Bool
  wakeup : Bool
  rst : Bool
  hsof : Bool
deriving DecidableEq

/-- `SAMDHost::irq_next_event` (`host.rs` lines 145-175): reads the interrupt
flag register once and translates the highest-priority pending bit into an
event.  Writing a set bit back to `intflag` clears it in hardware; the model
returns the flag state after those writes as the second component.  The `rst`
and `hsof` clears are commented out in the source, so those bits are left
untouched. -/
def irq_next_event (f : IntFlags) : Option HostEvent × IntFlags :=
  if f.ddisc then (some .detached, { f with ddisc := false })
  else if f.dconn then (some .attached, { f with dconn := false })
  else if f.ramacer then (some .ramAccess, { f with ramacer := false })
  else if f.uprsm then (some .upstreamResume, { f with uprsm := false })
  else if f.dnrsm then (some .downResume, { f with dnrsm := false })
  else if f.wakeup then (some .wakeUp, { f with wakeup := false })
  else if f.rst then (some .reset, f)
  else if f.hsof then (some .hostStartOfFrame, f)
  else (none, f)

/-- Sub-states of the detached bus state (`DetachedState` in `host.rs`). -/
inductive DetachedState where
  | init
  | waitForDevice
deriving DecidableEq

/-- Sub-states of the attached bus state (`AttachedState` in `host.rs`).
`waitSOF` carries the millisecond instant until which SOF must keep running. -/
inductive AttachedState where
  | resetBus
  | waitResetComplete
  | waitSOF (deadline : Nat)
deriving DecidableEq

/-- Sub-states of the steady bus state (`SteadyState` in `host.rs`). -/
inductive SteadyState where
  | configuring
  | running
  | error
deriving DecidableEq

/-- The host task state (`TaskState` in `host.rs`). -/
inductive TaskState where
  | detached (s : DetachedState)
  | attached (s : AttachedState)
  | steady (s : SteadyState)
deriving DecidableEq

/-- Whether a task state is one of the detached sub-states. -/
def TaskState.isDetached : TaskState → Bool
  | .detached _ => true
  | _ => false

/-- The event-handling match at the top of `SAMDHost::update`
(`host.rs` lines 182-193), applied when an event was supplied. -/
def handle_event (event : HostEvent) (s : TaskState) : TaskState :=
  match event, s with
  | .detached, .detached _ => s
  | .detached, _ => .detached .init
  | .attached, .detached _ => .attached .resetBus
  | _, _ => s

/-- Modelled from the spec: `usb_host::address::AddressPool`.  The module is
declared in `usb-host/src/lib.rs` (`pub mod address`) but its source file is
not under `src/`.  Spec §4.4: the pool issues unique device addresses in
[1,127]; `take_next` returns the next free address or an out-of-addresses
error; `put_back` returns an address to the free set. -/
structure AddressPool where
  free : List Nat
deriving DecidableEq

/-- Modelled from the spec: a fresh pool owns all 127 assignable addresses. -/
def AddressPool.new : AddressPool :=
  ⟨(List.range 127).map (· + 1)⟩

/-- Modelled from the spec: `take_next()` returns the next free address
(removing it from the free set), or nothing when all are in use. -/
def AddressPool.take_next (p : AddressPool) : Option (Nat × AddressPool) :=
  match p.free with
  | [] => none
  | a :: rest => some (a, ⟨rest⟩)

/-- Modelled from the spec: `put_back(addr)` returns an address to the free
set.  Note that the driver source under `src/` never calls it: the only call
site (`host.rs` line 236) is commented out. -/
def AddressPool.put_back (p : AddressPool) (a : Nat) : AddressPool :=
  ⟨p.free ++ [a]⟩

/-- Outcome of one `SAMDHost::config_dev_inner` attempt (`host.rs` lines
342-352), abstracting the two fallible control transfers it performs:
`descFail` = `get_device_descriptor` failed (before any address is taken),
`setAddrFail` = `set_address` failed (after an address was taken),
`success` = both succeeded. -/
inductive AttemptOutcome where
  | descFail
  | setAddrFail
  | success
deriving DecidableEq

/-- `SAMDHost::config_dev_inner` (`host.rs` lines 342-352): fetch the device
descriptor, take an address from the pool, issue SET_ADDRESS.  Returns the
assigned address on success (`none` = the attempt failed) together with the
pool as left by the attempt.  An address taken before a `set_address` failure
stays out of the pool: the source propagates the error with `?` and never
calls `put_back`. -/
def config_dev_inner (outcome : AttemptOutcome) (pool : AddressPool) :
    Option Nat × AddressPool :=
  match outcome with
  | .descFail => (none, pool)
  | .setAddrFail =>
    match pool.take_next with
    | none => (none, pool)
    | some (_, pool2) => (none, pool2)
  | .success =>
    match pool.take_next with
    | none => (none, pool)
    | some (addr, pool2) => (some addr, pool2)

/-- `SAMDHost::config_dev_loop` (`host.rs` lines 326-340): retry loop around
`config_dev_inner` with a `retries` counter incremented on each failure and
checked against `> 2`.  `outcome i` abstracts how the i-th attempt (0-based)
fares.  Returns (number of attempts performed, result, final pool). -/
def config_dev_loop (outcome : Nat → AttemptOutcome) (pool : AddressPool)
    (i retries : Nat) : Nat × Except TransferError Nat × AddressPool :=
  match config_dev_inner (outcome i) pool with
  | (some addr, pool2) => (i + 1, .ok addr, pool2)
  | (none, pool2) =>
    if h : retries + 1 > 2 then (i + 1, .error .enumerationFailed, pool2)
    else config_dev_loop outcome pool2 (i + 1) (retries + 1)
termination_by 3 - retries
decreasing_by omega

/-- `SAMDHost::configure_dev` (`host.rs` lines 296-324): run the enumeration
retry loop, then fetch the configuration descriptors and offer them to each
registered driver.  The post-loop part never touches the address pool; its
result is abstracted as `cfgRest`. -/
def configure_dev (outcome : Nat → AttemptOutcome)
    (cfgRest : Except TransferError Unit) (pool : AddressPool) :
    Except TransferError Unit × AddressPool :=
  match config_dev_loop outcome pool 0 0 with
  | (_, .ok _, pool2) => (cfgRest, pool2)
  | (_, .error e, pool2) => (.error e, pool2)

/-- Inputs of one `SAMDHost::update` tick that the hardware and runtime
supply: the millisecond clock reading, the interrupt flag register, and the
oracles for the enumeration performed when the tick runs `configure_dev`. -/
structure TickEnv where
  now : Nat
  flags : IntFlags
  outcome : Nat → AttemptOutcome
  cfgRest : Except TransferError Unit

/-- One invocation of `SAMDHost::update` (`host.rs` lines 178-247): optional
event handling first, then the unconditional per-tick state progression.
Register side effects other than the address pool are outside the model; the
driver `tick` calls in the running state do not change the task state.  The
`detached initialize` branch calls `reset_host`, which does not touch the
address pool (`host.rs` line 198 is a `TODO Free resources` comment). -/
def update (s : TaskState) (event : Option HostEvent) (env : TickEnv)
    (pool : AddressPool) : TaskState × AddressPool :=
  let s1 := match event with
    | some e => handle_event e s
    | none => s
  match s1 with
  | .detached .init => (.detached .waitForDevice, pool)
  | .attached .resetBus => (.attached .waitResetComplete, pool)
  | .attached .waitResetComplete =>
    if env.flags.rst then (.attached (.waitSOF (env.now + 20)), pool)
    else (s1, pool)
  | .attached (.waitSOF deadline) =>
    if env.flags.hsof then
      if deadline ≤ env.now then (.steady .configuring, pool)
      else (s1, pool)
    else (s1, pool)
  | .steady .configuring =>
    match configure_dev env.outcome env.cfgRest pool with
    | (.ok _, pool2) => (.steady .running, pool2)
    | (.error _, pool2) => (.steady .error, pool2)
  | st => (st, pool)

/-- Pipe tokens, from `atsamd-usb-host/src/pipe.rs` (`PToken`).  The reserved
value 0x3 is omitted as in the source. -/
inductive PToken where
  | Setup
  | In
  | Out
deriving DecidableEq

/-- Snapshot of the pipe interrupt flags and bank status bits read by one
iteration of `Pipe::transfer_status` (`pipe.rs` lines 197-239): `txstp`,
`trcpt0`, `trfail`, `stall` from the pipe `intflag` register; `errorflow` from
the bank `status_bk`; `dtgler`, `touter` from the bank `status_pipe`. -/
structure PipeSnapshot where
  txstp : Bool
  trcpt0 : Bool
  trfail : Bool
  stall : Bool
  errorflow : Bool
  dtgler : Bool
  touter : Bool
deriving DecidableEq

/-- `Pipe::transfer_status` (`pipe.rs` lines 197-239): one poll of the
transaction status in the source's fixed check order — token-specific
completion flag first (`txstp` for SETUP, `trcpt0` for IN/OUT), then bank
error-flow (NAK), transfer-failure, STALL, data-toggle error, hardware
timeout; `ok false` means still pending.  Flag acknowledgement writes are
outside the model (they do not affect the returned outcome). -/
def transfer_status (token : PToken) (s : PipeSnapshot) : Except PipeErr Bool :=
  if (match token with
      | .Setup => s.txstp
      | .In => s.trcpt0
      | .Out => s.trcpt0) then .ok true
  else if s.errorflow then .error .nak
  else if s.trfail then .error .transferFail
  else if s.stall then .error .stall
  else if s.dtgler then .error .dataToggle
  else if s.touter then .error .hwTimeout
  else .ok false

/-- Maximum time to wait for a control request with data to finish
(`pipe.rs` line 43, `USB_TIMEOUT_MS`).  Declared in the source but never
passed to any `sync_tx` call. -/
def USB_TIMEOUT_MS : Nat := 5 * 1024

/-- `Pipe::sync_tx` (`pipe.rs` lines 149-171): blocking poll loop.  `snaps n`
is the register/bank snapshot seen by the n-th `transfer_status` poll of this
pipe, `clock n` the `millis()` reading if the deadline check runs on that
iteration, and `until_` the optional software deadline (`if millis() > timeout
then SwTimeout`).  `fuel` bounds the number of polls modelled; `none` means
the loop was still polling when the fuel ran out.  On exit it returns the
outcome together with the next unconsumed poll index. -/
def sync_tx (token : PToken) (snaps : Nat → PipeSnapshot) (clock : Nat → Nat)
    (until_ : Option Nat) : Nat → Nat → Option (Except PipeErr Unit × Nat)
  | 0, _ => none
  | fuel + 1, n =>
    match transfer_status token (snaps n) with
    | .ok true => some (.ok (), n + 1)
    | .error e => some (.error e, n + 1)
    | .ok false =>
      match until_ with
      | some timeout =>
        if timeout < clock n then some (.error .swTimeout, n + 1)
        else sync_tx token snaps clock until_ fuel (n + 1)
      | none => sync_tx token snaps clock until_ fuel (n + 1)

/-- Run a sequence of transactions (token plus deadline argument) on one pipe,
threading the poll index, aborting on the first error, as
`Pipe::control_transfer` chains its `sync_tx` calls with `?`. -/
def run_txs (snaps : Nat → PipeSnapshot) (clock : Nat → Nat) :
    List (PToken × Option Nat) → Nat → Nat → Option (Except PipeErr Unit)
  | [], _, _ => some (.ok ())
  | (tok, d) :: rest, fuel, n =>
    match sync_tx tok snaps clock d fuel n with
    | none => none
    | some (.error e, _) => some (.error e)
    | some (.ok _, n2) => run_txs snaps clock rest fuel n2

/-- The transactions issued by `Pipe::control_transfer` (`pipe.rs` lines
62-100) with the deadline argument each one passes: the SETUP stage calls
`sync_tx(PToken::Setup, None)` (line 74); each data-stage transaction calls
`sync_tx(PToken::In, None)` or `sync_tx(PToken::Out, None)` (`in_transfer`
line 120 / `out_transfer` line 140); the status stage calls `sync_tx` with
the opposite token and `None` (lines 93-98).  `deviceToHost` selects IN data
transactions and an OUT status stage, `hostToDevice` the reverse.  Every
deadline is `None`, as written in the source. -/
def control_transfer_txs (deviceToHost : Bool) (hasData : Bool) (dataTx : Nat) :
    List (PToken × Option Nat) :=
  [(PToken.Setup, none)]
    ++ (if hasData then
          List.replicate dataTx ((if deviceToHost then PToken.In else PToken.Out), none)
        else [])
    ++ [((if deviceToHost then PToken.Out else PToken.In), none)]

/-- `Pipe::control_transfer` as the sequence of `sync_tx` calls it performs,
all with deadline `None`. -/
def control_transfer_polls (deviceToHost : Bool) (hasData : Bool)
    (dataTx : Nat) (snaps : Nat → PipeSnapshot) (clock : Nat → Nat)
    (fuel : Nat) : Option (Except PipeErr Unit) :=
  run_txs snaps clock (control_transfer_txs deviceToHost hasData dataTx) fuel 0

/-- A snapshot with no flag set: the hardware reports neither completion nor
any error, so `transfer_status` stays pending forever. -/
def stuckSnapshot : PipeSnapshot :=
  ⟨false, false, false, false, false, false, false⟩

/-- Sum of `count` consecutive values of `f` starting at index `i`:
`rsum f i n = f i + f (i+1) + ... + f (i+n-1)`. -/
def rsum (f : Nat → Nat) (i : Nat) : Nat → Nat
  | 0 => 0
  | n + 1 => rsum f i n + f (i + n)

/-- The loop of `Pipe::in_transfer` (`pipe.rs` lines 109-131): each iteration
issues one IN token transaction (`sync_tx(PToken::In, None)`), reads the
reported `byte_count` — abstracted as `chunk i` for the i-th transaction,
transactions being taken as completing — adds it to the running total, then
breaks on a short packet (`byte_count < max_packet_size`) or a full buffer
(`total >= buflen`), in that order.  `fuel` bounds the iterations modelled;
`none` means the loop was still running.  Returns (transactions performed,
total bytes received). -/
def in_transfer_loop (chunk : Nat → Nat) (mps buflen : Nat) :
    Nat → Nat → Nat → Option (Nat × Nat)
  | 0, _, _ => none
  | fuel + 1, i, total =>
    if chunk i < mps then some (i + 1, total + chunk i)
    else if buflen ≤ total + chunk i then some (i + 1, total + chunk i)
    else in_transfer_loop chunk mps buflen fuel (i + 1) (total + chunk i)

/-- `Pipe::in_transfer` started on an empty running total. -/
def in_transfer (chunk : Nat → Nat) (mps buflen fuel : Nat) :
    Option (Nat × Nat) :=
  in_transfer_loop chunk mps buflen fuel 0 0

/-- The loop of `Pipe::out_transfer` (`pipe.rs` lines 133-147): while the
running total is below the buffer length, issue one OUT token transaction
(`sync_tx(PToken::Out, None)`), read the hardware-reported sent count —
abstracted as `sent i` for the i-th transaction, transactions being taken as
completing — and add it to the total; return the total once it covers the
buffer.  `fuel` bounds the transactions modelled; `none` means the loop was
still running. -/
def out_transfer_loop (sent : Nat → Nat) (buflen : Nat) :
    Nat → Nat → Nat → Option Nat
  | fuel, i, total =>
    if buflen ≤ total then some total
    else
      match fuel with
      | 0 => none
      | f + 1 => out_transfer_loop sent buflen f (i + 1) (total + sent i)

/-- `Pipe::out_transfer` started on an empty running total. -/
def out_transfer (sent : Nat → Nat) (buflen fuel : Nat) : Option Nat :=
  out_transfer_loop sent buflen fuel 0 0

/-- Bit 7 of the endpoint address is the direction, OUT = 0 and IN = 1
(`usb-host/src/lib.rs` line 105). -/
def ENDPOINT_DIRECTION_MASK : Nat := 0x80

/-- A logical endpoint (`SingleEp` in `usb-host/src/lib.rs`): device address,
endpoint address (with direction bit), transfer type, max packet size. -/
structure SingleEp where
  device_address : Nat
  endpoint_address : Nat
  transfer_type : TransferType
  max_packet_size : Nat
deriving DecidableEq

/-- The `Endpoint::direction` default method (`usb-host/src/lib.rs` lines
119-124): direction inferred from bit 7 of the endpoint address. -/
def SingleEp.direction (ep : SingleEp) : Direction :=
  if ep.endpoint_address.land ENDPOINT_DIRECTION_MASK = 0 then .Out else .In

/-- `SAMDHost::in_transfer` (`host.rs` lines 369-376): an endpoint whose
declared direction is not IN is rejected with a permanent error before any
pipe work; otherwise `pipe_for` is invoked and the pipe-level IN transfer
runs, its outcome abstracted as `pipeResult`.  The second component counts
`pipe_for` invocations — all pipe register and bank-descriptor accesses of
this method happen at or after `pipe_for`, so 0 means no register access. -/
def host_in_transfer (ep : SingleEp) (pipeResult : Except PipeErr Nat) :
    Except TransferError Nat × Nat :=
  if ep.direction ≠ Direction.In then
    (.error (.permanent (r"Endpoint transfer direction mismatch")), 0)
  else
    match pipeResult with
    | .ok len => (.ok len, 1)
    | .error e => (.error e.toTransferError, 1)

/-- `SAMDHost::out_transfer` (`host.rs` lines 378-385): the symmetric check
for OUT endpoints. -/
def host_out_transfer (ep : SingleEp) (pipeResult : Except PipeErr Nat) :
    Except TransferError Nat × Nat :=
  if ep.direction ≠ Direction.Out then
    (.error (.permanent (r"Endpoint transfer direction mismatch")), 0)
  else
    match pipeResult with
    | .ok len => (.ok len, 1)
    | .error e => (.error e.toTransferError, 1)

/-- C1 counterexample: the claim fails on the code.  At requested size 15 the
code selects class 8, not the 16 asserted by the claim's example table; and at
1023 the code selects 1024, not the 512 that "largest class ≤ the requested
size" demands (the source's threshold for the 1024 class is `mps >= 1023`). -/
theorem pipe_for_size_class_spec_mismatch :
    pipe_for_size_class 15 = 8 ∧ (8 : Nat) ≠ 16
    ∧ pipe_for_size_class 1023 = 1024 ∧ spec_size_class 1023 = 512 := by
  decide

/-- C1 amended: `pipe_for` selects the largest hardware-supported size class
less than or equal to the requested size (floor 8, cap 1024) for every input
except 1023; input 1023 selects class 1024 (the code's threshold for the
1024 class is ≥ 1023).  For the inputs {7,8,15,16,63,64,1023,1024,2000} the
selected classes are {8,8,8,16,32,64,1024,1024,1024}. -/
theorem pipe_for_size_class_amended :
    (∀ mps : Nat, mps ≠ 1023 → pipe_for_size_class mps = spec_size_class mps)
    ∧ pipe_for_size_class 1023 = 1024
    ∧ pipe_for_size_class 7 = 8 ∧ pipe_for_size_class 8 = 8
    ∧ pipe_for_size_class 15 = 8 ∧ pipe_for_size_class 16 = 16
    ∧ pipe_for_size_class 63 = 32 ∧ pipe_for_size_class 64 = 64
    ∧ pipe_for_size_class 1024 = 1024 ∧ pipe_for_size_class 2000 = 1024 := by
  refine ⟨?_, by decide, by decide, by decide, by decide, by decide, by decide,
    by decide, by decide, by decide⟩
  intro mps h
  unfold pipe_for_size_class spec_size_class
  split_ifs <;> omega

/-- C1 witness: the amended round-down rule applied at the concrete input 63. -/
theorem pipe_for_size_class_amended_witness :
    pipe_for_size_class 63 = spec_size_class 63 :=
  pipe_for_size_class_amended.1 63 (by decide)

/-- Case analysis of one `update` tick starting from `waitSOF`: a detach event
re-initializes; otherwise the state advances to configuring exactly when the
SOF flag is set and the clock has reached the deadline, and is unchanged
otherwise. -/
theorem update_from_waitSOF (d : Nat) (ev : Option HostEvent) (env : TickEnv)
    (pool : AddressPool) :
    update (.attached (.waitSOF d)) ev env pool =
      if ev = some .detached then (.detached .waitForDevice, pool)
      else if env.flags.hsof = true ∧ d ≤ env.now then (.steady .configuring, pool)
      else (.attached (.waitSOF d), pool) := by
  rcases ev with _ | e
  · by_cases h1 : env.flags.hsof <;> by_cases h2 : d ≤ env.now <;>
      simp [update, h1, h2]
  · cases e <;>
      by_cases h1 : env.flags.hsof <;> by_cases h2 : d ≤ env.now <;>
        simp [update, handle_event, h1, h2]

/-- C2: in every reachable execution, a tick starting in
Attached/WaitStartOfFrame(deadline) reaches Steady/Configuring only when the
supplied clock reads at least the deadline; the deadline is captured as
reset-complete observation time + 20 ms; an early SOF (clock still before the
deadline) leaves the state and its deadline unchanged, and any number of early
SOF ticks in a row leave it unchanged. -/
theorem update_waitSOF_respects_deadline (d : Nat) (ev : Option HostEvent)
    (env : TickEnv) (pool : AddressPool) (flags : IntFlags)
    (outc : Nat → AttemptOutcome) (cr : Except TransferError Unit)
    (times : List Nat) :
    ((update (.attached (.waitSOF d)) ev env pool).1 = .steady .configuring →
      d ≤ env.now)
    ∧ (env.flags.rst = true →
        update (.attached .waitResetComplete) none env pool
          = (.attached (.waitSOF (env.now + 20)), pool))
    ∧ (env.flags.hsof = true → env.now < d →
        update (.attached (.waitSOF d)) (some .hostStartOfFrame) env pool
            = (.attached (.waitSOF d), pool)
        ∧ update (.attached (.waitSOF d)) none env pool
            = (.attached (.waitSOF d), pool))
    ∧ ((∀ t ∈ times, t < d) →
        times.foldl
          (fun sp t => update sp.1 (some .hostStartOfFrame) ⟨t, flags, outc, cr⟩ sp.2)
          (.attached (.waitSOF d), pool)
          = (.attached (.waitSOF d), pool)) := by
  refine ⟨?_, ?_, ?_, ?_⟩
  · rw [update_from_waitSOF]
    split_ifs with h1 h2
    · intro hh; simp at hh
    · intro _; exact h2.2
    · intro hh; simp at hh
  · intro h; simp [update, h]
  · intro h1 h2
    have hn : ¬ d ≤ env.now := by omega
    constructor <;> (rw [update_from_waitSOF]; simp [h1, hn])
  · induction times with
    | nil => intro _; rfl
    | cons t ts ih =>
      intro h
      have ht : t < d := h t (List.mem_cons_self t ts)
      have hn : ¬ d ≤ t := by omega
      simp only [List.foldl_cons]
      rw [update_from_waitSOF]
      simp only [hn, and_false, if_false, reduceCtorEq, if_neg]
      exact ih (fun u hu => h u (List.mem_cons_of_mem t hu))

/-- C2 witness: at deadline 30, a tick with the SOF flag set at clock 50
reaches configuring (so 30 ≤ 50), and an early SOF tick at clock 10 leaves the
wait state unchanged. -/
theorem update_waitSOF_respects_deadline_witness :
    (30 : Nat) ≤ 50
    ∧ update (.attached (.waitSOF 30)) (some .hostStartOfFrame)
        ⟨10, ⟨false, false, false, false, false, false, false, true⟩,
          fun _ => .descFail, .ok ()⟩ AddressPool.new
      = (.attached (.waitSOF 30), AddressPool.new) :=
  ⟨(update_waitSOF_respects_deadline 30 none
      ⟨50, ⟨false, false, false, false, false, false, false, true⟩,
        fun _ => .descFail, .ok ()⟩ AddressPool.new
      ⟨false, false, false, false, false, false, false, true⟩
      (fun _ => .descFail) (.ok ()) []).1 (by decide),
   ((update_waitSOF_respects_deadline 30 (some .hostStartOfFrame)
      ⟨10, ⟨false, false, false, false, false, false, false, true⟩,
        fun _ => .descFail, .ok ()⟩ AddressPool.new
      ⟨false, false, false, false, false, false, false, true⟩
      (fun _ => .descFail) (.ok ()) []).2.2.1 rfl (by decide)).1⟩

/-- C3: the event-handling step of `SAMDHost::update` is exactly the §4.1
table: a Detached event in a detached sub-state leaves the state unchanged; a
Detached event anywhere else yields Detached/Initialize; an Attached event in
a detached sub-state yields Attached/ResetBus; every other (event, state) pair
leaves the state unchanged (the event is dropped). -/
theorem handle_event_transition_table :
    (∀ ds : DetachedState, handle_event .detached (.detached ds) = .detached ds)
    ∧ (∀ s : TaskState, s.isDetached = false →
        handle_event .detached s = .detached .init)
    ∧ (∀ ds : DetachedState, handle_event .attached (.detached ds) = .attached .resetBus)
    ∧ (∀ (e : HostEvent) (s : TaskState), e ≠ .detached →
        (e = .attached → s.isDetached = false) → handle_event e s = s) := by
  refine ⟨?_, ?_, ?_, ?_⟩
  · intro ds; cases ds <;> rfl
  · intro s h; cases s <;> simp_all [handle_event, TaskState.isDetached]
  · intro ds; cases ds <;> rfl
  · intro e s h1 h2
    cases e <;> cases s <;> simp_all [handle_event, TaskState.isDetached]

/-- C3 witness: a Reset event in Steady/Running leaves the state unchanged. -/
theorem handle_event_transition_table_witness :
    handle_event .reset (.steady .running) = .steady .running :=
  handle_event_transition_table.2.2.2 .reset (.steady .running) (by decide)
    (fun _ => rfl)

/-- A `config_dev_inner` attempt whose outcome is not `success` reports no
device (its first component is `none`). -/
theorem config_dev_inner_fail (o : AttemptOutcome) (p : AddressPool)
    (h : o ≠ .success) :
    config_dev_inner o p = (none, (config_dev_inner o p).2) := by
  cases o with
  | descFail => rfl
  | setAddrFail =>
    rcases hp : p.take_next with _ | ⟨a, p2⟩ <;> simp [config_dev_inner, hp]
  | success => exact absurd rfl h

/-- Unfolding `config_dev_loop` once on a failed attempt that still has
retries left. -/
theorem config_dev_loop_fail_step (outcome : Nat → AttemptOutcome)
    (pool pool2 : AddressPool) (i retries : Nat)
    (hp : config_dev_inner (outcome i) pool = (none, pool2))
    (hr : retries + 1 ≤ 2) :
    config_dev_loop outcome pool i retries
      = config_dev_loop outcome pool2 (i + 1) (retries + 1) := by
  rw [config_dev_loop, hp]
  simp only []
  rw [dif_neg (by omega)]

/-- Unfolding `config_dev_loop` once on a failed attempt that exhausts the
retry budget (`retries + 1 > 2`). -/
theorem config_dev_loop_fail_last (outcome : Nat → AttemptOutcome)
    (pool pool2 : AddressPool) (i retries : Nat)
    (hp : config_dev_inner (outcome i) pool = (none, pool2))
    (hr : retries + 1 > 2) :
    config_dev_loop outcome pool i retries
      = (i + 1, .error .enumerationFailed, pool2) := by
  rw [config_dev_loop, hp]
  simp only []
  rw [dif_pos hr]

/-- C6: if the device-descriptor-fetch/address-assignment step fails on every
attempt, `config_dev_loop` performs exactly 3 attempts — never more, never
fewer — and returns the EnumerationFailed error. -/
theorem config_dev_loop_three_attempts (outcome : Nat → AttemptOutcome)
    (pool : AddressPool) (h : ∀ k, k < 3 → outcome k ≠ .success) :
    (config_dev_loop outcome pool 0 0).1 = 3
    ∧ (config_dev_loop outcome pool 0 0).2.1 = .error .enumerationFailed := by
  have h0 := config_dev_inner_fail (outcome 0) pool (h 0 (by omega))
  rw [config_dev_loop_fail_step outcome pool _ 0 0 h0 (by omega)]
  have h1 := config_dev_inner_fail (outcome (0 + 1))
    ((config_dev_inner (outcome 0) pool).2) (h (0 + 1) (by omega))
  rw [config_dev_loop_fail_step outcome _ _ (0 + 1) (0 + 1) h1 (by omega)]
  have h2 := config_dev_inner_fail (outcome (0 + 1 + 1))
    ((config_dev_inner (outcome (0 + 1)) (config_dev_inner (outcome 0) pool).2).2)
    (h (0 + 1 + 1) (by omega))
  rw [config_dev_loop_fail_last outcome _ _ (0 + 1 + 1) (0 + 1 + 1) h2 (by omega)]
  exact ⟨rfl, rfl⟩

/-- C6 witness: with the device-descriptor fetch failing on every attempt and
a full address pool, the loop makes exactly 3 attempts and fails enumeration. -/
theorem config_dev_loop_three_attempts_witness :
    (config_dev_loop (fun _ => .descFail) AddressPool.new 0 0).1 = 3
    ∧ (config_dev_loop (fun _ => .descFail) AddressPool.new 0 0).2.1
        = .error .enumerationFailed :=
  config_dev_loop_three_attempts (fun _ => .descFail) AddressPool.new
    (by decide)

/-- Unfolding `config_dev_loop` once on a successful attempt. -/
theorem config_dev_loop_ok_step (outcome : Nat → AttemptOutcome)
    (pool pool2 : AddressPool) (addr i retries : Nat)
    (hp : config_dev_inner (outcome i) pool = (some addr, pool2)) :
    config_dev_loop outcome pool i retries = (i + 1, .ok addr, pool2) := by
  rw [config_dev_loop, hp]

/-- C5: addresses are never returned to the pool.  With a full pool, an
enumeration whose SET_ADDRESS step fails on all three attempts consumes
addresses 1, 2 and 3 and returns EnumerationFailed with those addresses still
missing from the free set; a subsequent detach tick leaves the pool unchanged
(the `Detached/Initialize` branch runs `reset_host`, whose resource freeing is
an unimplemented `TODO` in the source, and `AddressPool::put_back` is never
called — its only call site, `host.rs` line 236, is commented out).
Symmetrically, a successfully enumerated device keeps address 1 and a detach
tick does not return it either. -/
theorem addresses_never_returned_to_pool :
    configure_dev (fun _ => .setAddrFail) (.ok ()) AddressPool.new
      = (.error .enumerationFailed, ⟨(List.range 124).map (· + 4)⟩)
    ∧ (1 ∉ ((List.range 124).map (· + 4))
        ∧ 2 ∉ ((List.range 124).map (· + 4))
        ∧ 3 ∉ ((List.range 124).map (· + 4)))
    ∧ update (.steady .error) (some .detached)
        ⟨0, ⟨false, false, false, false, false, false, false, false⟩,
          fun _ => .setAddrFail, .ok ()⟩
        ⟨(List.range 124).map (· + 4)⟩
      = (.detached .waitForDevice, ⟨(List.range 124).map (· + 4)⟩)
    ∧ configure_dev (fun _ => .success) (.ok ()) AddressPool.new
      = (.ok (), ⟨(List.range 126).map (· + 2)⟩)
    ∧ 1 ∉ ((List.range 126).map (· + 2))
    ∧ update (.steady .running) (some .detached)
        ⟨0, ⟨false, false, false, false, false, false, false, false⟩,
          fun _ => .success, .ok ()⟩
        ⟨(List.range 126).map (· + 2)⟩
      = (.detached .waitForDevice, ⟨(List.range 126).map (· + 2)⟩) := by
  refine ⟨?_, by decide, by decide, ?_, by decide, by decide⟩
  · have l : config_dev_loop (fun _ => AttemptOutcome.setAddrFail)
        AddressPool.new 0 0
        = (3, .error .enumerationFailed, ⟨(List.range 124).map (· + 4)⟩) := by
      rw [config_dev_loop_fail_step (fun _ => AttemptOutcome.setAddrFail)
        AddressPool.new ⟨(List.range 126).map (· + 2)⟩ 0 0 (by decide) (by omega)]
      rw [config_dev_loop_fail_step (fun _ => AttemptOutcome.setAddrFail)
        _ ⟨(List.range 125).map (· + 3)⟩ (0 + 1) (0 + 1) (by decide) (by omega)]
      rw [config_dev_loop_fail_last (fun _ => AttemptOutcome.setAddrFail)
        _ ⟨(List.range 124).map (· + 4)⟩ (0 + 1 + 1) (0 + 1 + 1) (by decide) (by omega)]
    unfold configure_dev
    rw [l]
  · have l2 : config_dev_loop (fun _ => AttemptOutcome.success)
        AddressPool.new 0 0
        = (1, .ok 1, ⟨(List.range 126).map (· + 2)⟩) := by
      rw [config_dev_loop_ok_step (fun _ => AttemptOutcome.success)
        AddressPool.new ⟨(List.range 126).map (· + 2)⟩ 1 0 0 (by decide)]
    unfold configure_dev
    rw [l2]

/-- C10: `irq_next_event` returns at most one event (its result is a single
option), selected by the fixed priority order Detached, Attached, RamAccess,
UpstreamResume, DownResume, WakeUp, Reset, HostStartOfFrame over the pending
flags; it clears exactly the flag of the event it returns, except Reset and
HostStartOfFrame whose flags are left set; with no pending flag it returns no
event and changes nothing. -/
theorem irq_next_event_priority_and_clearing (f : IntFlags) :
    ((irq_next_event f).1 = none ↔
      f = ⟨false, false, false, false, false, false, false, false⟩)
    ∧ ((irq_next_event f).1 = some .detached ↔ f.ddisc = true)
    ∧ ((irq_next_event f).1 = some .attached ↔
        (f.ddisc = false ∧ f.dconn = true))
    ∧ ((irq_next_event f).1 = some .ramAccess ↔
        (f.ddisc = false ∧ f.dconn = false ∧ f.ramacer = true))
    ∧ ((irq_next_event f).1 = some .upstreamResume ↔
        (f.ddisc = false ∧ f.dconn = false ∧ f.ramacer = false ∧ f.uprsm = true))
    ∧ ((irq_next_event f).1 = some .downResume ↔
        (f.ddisc = false ∧ f.dconn = false ∧ f.ramacer = false ∧ f.uprsm = false
          ∧ f.dnrsm = true))
    ∧ ((irq_next_event f).1 = some .wakeUp ↔
        (f.ddisc = false ∧ f.dconn = false ∧ f.ramacer = false ∧ f.uprsm = false
          ∧ f.dnrsm = false ∧ f.wakeup = true))
    ∧ ((irq_next_event f).1 = some .reset ↔
        (f.ddisc = false ∧ f.dconn = false ∧ f.ramacer = false ∧ f.uprsm = false
          ∧ f.dnrsm = false ∧ f.wakeup = false ∧ f.rst = true))
    ∧ ((irq_next_event f).1 = some .hostStartOfFrame ↔
        (f.ddisc = false ∧ f.dconn = false ∧ f.ramacer = false ∧ f.uprsm = false
          ∧ f.dnrsm = false ∧ f.wakeup = false ∧ f.rst = false ∧ f.hsof = true))
    ∧ (irq_next_event f).1 ≠ some .noEvent
    ∧ ((irq_next_event f).2.rst = f.rst ∧ (irq_next_event f).2.hsof = f.hsof)
    ∧ ((irq_next_event f).1 = some .detached →
        (irq_next_event f).2 = { f with ddisc := false })
    ∧ ((irq_next_event f).1 = some .attached →
        (irq_next_event f).2 = { f with dconn := false })
    ∧ ((irq_next_event f).1 = some .ramAccess →
        (irq_next_event f).2 = { f with ramacer := false })
    ∧ ((irq_next_event f).1 = some .upstreamResume →
        (irq_next_event f).2 = { f with uprsm := false })
    ∧ ((irq_next_event f).1 = some .downResume →
        (irq_next_event f).2 = { f with dnrsm := false })
    ∧ ((irq_next_event f).1 = some .wakeUp →
        (irq_next_event f).2 = { f with wakeup := false })
    ∧ ((irq_next_event f).1 = some .reset → (irq_next_event f).2 = f)
    ∧ ((irq_next_event f).1 = some .hostStartOfFrame → (irq_next_event f).2 = f)
    ∧ ((irq_next_event f).1 = none → (irq_next_event f).2 = f) := by
  obtain ⟨a, b, c, d, e, g, h, i⟩ := f
  cases a <;> cases b <;> cases c <;> cases d <;> cases e <;> cases g <;>
    cases h <;> cases i <;> simp [irq_next_event]

/-- `transfer_status` can never report a software timeout: `SwTimeout` is
produced only by the deadline check in `sync_tx`. -/
theorem transfer_status_ne_swTimeout (token : PToken) (s : PipeSnapshot) :
    transfer_status token s ≠ .error .swTimeout := by
  unfold transfer_status
  split_ifs <;> simp

/-- With no deadline supplied, `sync_tx` can never exit with `SwTimeout`. -/
theorem sync_tx_none_no_swTimeout (token : PToken) (snaps : Nat → PipeSnapshot)
    (clock : Nat → Nat) :
    ∀ (fuel n m : Nat),
      sync_tx token snaps clock none fuel n ≠ some (.error .swTimeout, m) := by
  intro fuel
  induction fuel with
  | zero => intro n m h; simp [sync_tx] at h
  | succ f ih =>
    intro n m h
    rw [sync_tx] at h
    rcases hts : transfer_status token (snaps n) with e | b
    · rw [hts] at h
      obtain ⟨he, hm⟩ : e = .swTimeout ∧ n + 1 = m := by simpa using h
      exact transfer_status_ne_swTimeout token (snaps n) (by rw [hts, he])
    · rw [hts] at h
      cases b
      · exact ih (n + 1) m h
      · simp at h

/-- A pipe whose hardware never reports completion or any error keeps
`sync_tx` polling until the fuel runs out when no deadline is supplied. -/
theorem sync_tx_stuck (token : PToken) (clock : Nat → Nat) :
    ∀ (fuel n : Nat),
      sync_tx token (fun _ => stuckSnapshot) clock none fuel n = none := by
  have ts : ∀ t : PToken, transfer_status t stuckSnapshot = .ok false := by
    intro t; cases t <;> rfl
  intro fuel
  induction fuel with
  | zero => intro n; rfl
  | succ f ih =>
    intro n
    rw [sync_tx, ts]
    exact ih (n + 1)

/-- A transaction sequence all of whose deadline arguments are `None` can
never produce a software-timeout outcome. -/
theorem run_txs_all_none_no_swTimeout (snaps : Nat → PipeSnapshot)
    (clock : Nat → Nat) :
    ∀ (txs : List (PToken × Option Nat)), (∀ t ∈ txs, t.2 = none) →
      ∀ (fuel n : Nat), run_txs snaps clock txs fuel n ≠ some (.error .swTimeout) := by
  intro txs
  induction txs with
  | nil => intro _ fuel n h; simp [run_txs] at h
  | cons td rest ih =>
    intro hall fuel n h
    obtain ⟨tok, d⟩ := td
    have hd : d = none := hall (tok, d) (List.mem_cons_self _ _)
    subst hd
    rw [run_txs] at h
    rcases hs : sync_tx tok snaps clock none fuel n with _ | ⟨r, n2⟩
    · rw [hs] at h; simp at h
    · rw [hs] at h
      rcases r with e | u
      · have he : e = .swTimeout := by simpa using h
        exact sync_tx_none_no_swTimeout tok snaps clock fuel n n2 (he ▸ hs)
      · exact ih (fun t ht => hall t (List.mem_cons_of_mem _ ht)) fuel n2 h

/-- C4 (code bug): no control transfer is subject to the 5000 ms software
timeout.  Every `sync_tx` call made by `Pipe::control_transfer` (SETUP, data
stage, status stage) passes `None` as the deadline, so (1) the poll loop can
never report `SwTimeout` without a deadline, (2) with hardware that never
completes, a control transfer polls forever instead of timing out, and (3) a
whole control transfer can never produce `SwTimeout`.  The timeout mechanism
itself works when a deadline is supplied (4), and even the declared-but-unused
`USB_TIMEOUT_MS` constant is 5120 ms, not 5000 (5). -/
theorem control_transfer_no_software_timeout :
    (∀ (token : PToken) (snaps : Nat → PipeSnapshot) (clock : Nat → Nat)
        (fuel n m : Nat),
      sync_tx token snaps clock none fuel n ≠ some (.error .swTimeout, m))
    ∧ (∀ (deviceToHost hasData : Bool) (dataTx : Nat) (clock : Nat → Nat)
        (fuel : Nat),
      control_transfer_polls deviceToHost hasData dataTx (fun _ => stuckSnapshot)
        clock fuel = none)
    ∧ (∀ (deviceToHost hasData : Bool) (dataTx : Nat)
        (snaps : Nat → PipeSnapshot) (clock : Nat → Nat) (fuel : Nat),
      control_transfer_polls deviceToHost hasData dataTx snaps clock fuel
        ≠ some (.error .swTimeout))
    ∧ sync_tx .Setup (fun _ => stuckSnapshot) (fun n => n) (some 3) 5 0
        = some (.error .swTimeout, 5)
    ∧ USB_TIMEOUT_MS = 5120 := by
  refine ⟨sync_tx_none_no_swTimeout, ?_, ?_, by rfl, rfl⟩
  · intro dth hd dataTx clock fuel
    unfold control_transfer_polls control_transfer_txs
    simp only [List.cons_append, run_txs, sync_tx_stuck]
  · intro dth hd dataTx snaps clock fuel
    apply run_txs_all_none_no_swTimeout
    intro t ht
    obtain ⟨tok, d⟩ := t
    unfold control_transfer_txs at ht
    cases hd <;> simp [List.mem_replicate, Prod.mk.injEq] at ht <;>
      simp only [] <;> tauto

/-- Peeling the first summand off `rsum`. -/
theorem rsum_succ_left (f : Nat → Nat) (i n : Nat) :
    rsum f i (n + 1) = f i + rsum f (i + 1) n := by
  induction n with
  | zero => simp [rsum]
  | succ k ih =>
    rw [rsum, ih, rsum, show i + (k + 1) = i + 1 + k from by omega]
    exact (Nat.add_assoc _ _ _)

/-- Loop invariant form of the short-packet termination property, generalized
over the starting index and running total. -/
theorem in_transfer_loop_spec (chunk : Nat → Nat) (mps buflen : Nat) :
    ∀ (j i total fuel : Nat),
      j + 1 ≤ fuel →
      (∀ k, k < j → mps ≤ chunk (i + k)) →
      (∀ k, k < j → total + rsum chunk i (k + 1) < buflen) →
      chunk (i + j) < mps →
      in_transfer_loop chunk mps buflen fuel i total
        = some (i + j + 1, total + rsum chunk i (j + 1)) := by
  intro j
  induction j with
  | zero =>
    intro i total fuel hf h1 h2 hshort
    obtain ⟨f, rfl⟩ : ∃ f, fuel = f + 1 := ⟨fuel - 1, by omega⟩
    rw [in_transfer_loop, if_pos (by simpa using hshort)]
    simp [rsum]
  | succ j ih =>
    intro i total fuel hf h1 h2 hshort
    obtain ⟨f, rfl⟩ : ∃ f, fuel = f + 1 := ⟨fuel - 1, by omega⟩
    have hbc : ¬ chunk i < mps := by
      have := h1 0 (by omega); simp at this; omega
    have hroom : ¬ buflen ≤ total + chunk i := by
      have := h2 0 (by omega); simp [rsum] at this; omega
    rw [in_transfer_loop, if_neg hbc, if_neg hroom]
    have hrec := ih (i + 1) (total + chunk i) f (by omega)
      (fun k hk => by
        have hh := h1 (k + 1) (by omega)
        rw [show i + 1 + k = i + (k + 1) from by omega]
        exact hh)
      (fun k hk => by
        have hh := h2 (k + 1) (by omega)
        rw [rsum_succ_left] at hh
        omega)
      (by
        have : i + 1 + j = i + (j + 1) := by omega
        rw [this]
        exact hshort)
    rw [hrec]
    have e1 : i + 1 + j + 1 = i + (j + 1) + 1 := by omega
    have e2 : total + chunk i + rsum chunk (i + 1) (j + 1)
        = total + rsum chunk i (j + 1 + 1) := by
      rw [rsum_succ_left chunk i (j + 1)]
      omega
    rw [e1, e2]

/-- C7: an IN transfer terminates immediately after the first transaction
whose received length is strictly below the endpoint's max packet size —
provided the j earlier transactions were all full packets and never filled
the buffer — and returns exactly the sum of the chunk lengths received so
far, not the buffer length. -/
theorem in_transfer_short_packet_termination (chunk : Nat → Nat)
    (mps buflen j fuel : Nat)
    (hfuel : j + 1 ≤ fuel)
    (hfull : ∀ k, k < j → mps ≤ chunk k)
    (hroom : ∀ k, k < j → rsum chunk 0 (k + 1) < buflen)
    (hshort : chunk j < mps) :
    in_transfer chunk mps buflen fuel = some (j + 1, rsum chunk 0 (j + 1)) := by
  have h := in_transfer_loop_spec chunk mps buflen j 0 0 fuel hfuel
    (fun k hk => by simpa using hfull k hk)
    (fun k hk => by simpa using hroom k hk)
    (by simpa using hshort)
  simpa [in_transfer] using h

/-- C7 witness: two chunks 4 then 2 against max packet size 4 and a 10-byte
buffer stop after the second (short) transaction with 6 bytes total. -/
theorem in_transfer_short_packet_termination_witness :
    in_transfer (fun i => if i = 0 then 4 else 2) 4 10 2 = some (2, 6) := by
  have h := in_transfer_short_packet_termination
    (fun i => if i = 0 then 4 else 2) 4 10 1 2
    (by omega) (by decide) (by decide) (by decide)
  have e : rsum (fun i => if i = 0 then 4 else 2) 0 (1 + 1) = 6 := by decide
  rw [h, e]

/-- Loop invariant form of the OUT-completeness property: any successful exit
covers the buffer and returns the accumulated hardware-reported count. -/
theorem out_transfer_loop_ge (sent : Nat → Nat) (buflen : Nat) :
    ∀ (fuel i total r : Nat),
      out_transfer_loop sent buflen fuel i total = some r →
      buflen ≤ r ∧ ∃ m, r = total + rsum sent i m := by
  intro fuel
  induction fuel with
  | zero =>
    intro i total r h
    rw [out_transfer_loop] at h
    by_cases hb : buflen ≤ total
    · rw [if_pos hb] at h
      have hr := Option.some.inj h
      subst hr
      exact ⟨hb, 0, by simp [rsum]⟩
    · rw [if_neg hb] at h
      simp at h
  | succ f ih =>
    intro i total r h
    rw [out_transfer_loop] at h
    by_cases hb : buflen ≤ total
    · rw [if_pos hb] at h
      have hr := Option.some.inj h
      subst hr
      exact ⟨hb, 0, by simp [rsum]⟩
    · rw [if_neg hb] at h
      obtain ⟨hge, m, hm⟩ := ih (i + 1) (total + sent i) r h
      refine ⟨hge, m + 1, ?_⟩
      rw [rsum_succ_left]
      omega

/-- C8: if `out_transfer` on a buffer of length `buflen` returns success, the
returned total is at least `buflen` — success is never reported with fewer
bytes sent than the buffer length — and the total is exactly the accumulated
hardware-reported sent count over the transactions performed. -/
theorem out_transfer_covers_buffer (sent : Nat → Nat) (buflen fuel r : Nat)
    (h : out_transfer sent buflen fuel = some r) :
    buflen ≤ r ∧ ∃ m, r = rsum sent 0 m := by
  obtain ⟨hge, m, hm⟩ := out_transfer_loop_ge sent buflen fuel 0 0 r h
  exact ⟨hge, m, by simpa using hm⟩

/-- C8 witness: sending 3 bytes per transaction against a 5-byte buffer
returns 6 ≥ 5, the accumulated sent count. -/
theorem out_transfer_covers_buffer_witness :
    (5 : Nat) ≤ 6 ∧ ∃ m, (6 : Nat) = rsum (fun _ => 3) 0 m :=
  out_transfer_covers_buffer (fun _ => 3) 5 2 6 (by rfl)

/-- C9: `in_transfer` on an endpoint whose declared direction is OUT fails
immediately with a permanent error and performs no pipe access (`pipe_for` is
never invoked — the count is 0); symmetrically for `out_transfer` on an IN
endpoint.  The result does not depend on what the pipe would have returned. -/
theorem transfer_direction_mismatch_rejected (ep epo : SingleEp)
    (r ro : Except PipeErr Nat)
    (h : ep.direction = Direction.Out) (ho : epo.direction = Direction.In) :
    host_in_transfer ep r
      = (.error (.permanent (r"Endpoint transfer direction mismatch")), 0)
    ∧ host_out_transfer epo ro
      = (.error (.permanent (r"Endpoint transfer direction mismatch")), 0) := by
  constructor
  · simp [host_in_transfer, h]
  · simp [host_out_transfer, ho]

/-- C9 witness: endpoint address 0x01 declares OUT, 0x81 declares IN; the
mismatched transfer calls are rejected with the permanent error and zero
`pipe_for` invocations. -/
theorem transfer_direction_mismatch_rejected_witness :
    host_in_transfer ⟨1, 1, .bulk, 8⟩ (.ok 0)
      = (.error (.permanent (r"Endpoint transfer direction mismatch")), 0)
    ∧ host_out_transfer ⟨1, 129, .bulk, 8⟩ (.ok 0)
      = (.error (.permanent (r"Endpoint transfer direction mismatch")), 0) :=
  transfer_direction_mismatch_rejected ⟨1, 1, .bulk, 8⟩ ⟨1, 129, .bulk, 8⟩
    (.ok 0) (.ok 0) (by decide) (by decide)
